import Mathlib

/-!
Verification of the `scintill-ai` S4 scintillation preprocessing pipeline and
its IO helpers, shallowly embedded from `scintill_ai/preprocess.py`,
`scintill_ai/io.py` and `scintill_ai/utils.py`.

Numbers are modelled as real numbers (`ℝ`); timestamps and satellite
identifiers as integers (`ℤ`); pandas `DataFrame`s as lists of rows.
-/

open Classical

noncomputable section

/-- Real part of the principal-branch complex square root of a real number,
as computed by `np.emath.sqrt(x).real` in `denoise_S4`
(`scintill_ai/preprocess.py`, line 115): numpy's `emath.sqrt` returns the
principal complex square root `x ^ (1/2)` when the radicand is negative,
and the code keeps only its real part. -/
def emathSqrtRe (x : ℝ) : ℝ := ((x : ℂ) ^ ((1 : ℂ) / 2)).re

/-- Rounding to the nearest integer with ties to even, the behaviour of
`np.round` (IEEE round-half-even) on exact values. -/
def npRound (x : ℝ) : ℝ :=
  if x - ⌊x⌋ < 1 / 2 then ⌊x⌋
  else if 1 / 2 < x - ⌊x⌋ then (⌊x⌋ : ℝ) + 1
  else if Even ⌊x⌋ then ⌊x⌋ else (⌊x⌋ : ℝ) + 1

/-- Rounding to 3 decimal places, the behaviour of `np.round(x, 3)` on exact
values: scale by `10^3`, round half to even, unscale. -/
def np_round3 (x : ℝ) : ℝ := npRound (1000 * x) / 1000

/-- Elementwise body of `denoise_S4` (`scintill_ai/preprocess.py`, lines
114-117): `np.round(np.emath.sqrt(s4^2 - s4_correction^2).real, 3)`. -/
def denoise_S4_val (s4 s4_correction : ℝ) : ℝ :=
  np_round3 (emathSqrtRe (s4 ^ 2 - s4_correction ^ 2))

/-- Vectorised `denoise_S4` (`scintill_ai/preprocess.py`, lines 99-117):
the parallel series of raw S4 and correction values are combined
elementwise. -/
def denoise_S4 (s4_series s4_corr_series : List ℝ) : List ℝ :=
  List.zipWith denoise_S4_val s4_series s4_corr_series

end

/-- Raw GNSS observation row, one satellite-epoch measurement as returned by
the ISMR query service: `time_utc`, `svid`, `elev`, `s4`, `s4_correction`.
Timestamps and satellite identifiers are modelled as integers. -/
structure Obs where
  time_utc : ℤ
  svid : ℤ
  elev : ℝ
  s4 : ℝ
  s4_correction : ℝ

/-- Observation row after `df["s4_denoised"] = denoise_S4(...)`
(`scintill_ai/preprocess.py`, line 62): the raw row plus the `s4_denoised`
column. -/
structure ObsD extends Obs where
  s4_denoised : ℝ

/-- Observation row after the two `np.where` classification assignments
(`scintill_ai/preprocess.py`, lines 66-76): the denoised row plus the
boolean `is_mild_scint` and `is_strong_scint` columns. -/
structure ObsC extends ObsD where
  is_mild_scint : Bool
  is_strong_scint : Bool

noncomputable section

/-- Embedding of `filter_higher_elevs` (`scintill_ai/preprocess.py`, lines
120-146): the function copies the frame (`df.copy()`), adds a boolean
`is_high_elev` column via `np.where(df_["elev"].ge(threshold), True, False)`,
keeps the rows where it is `True`, drops the helper column and resets the
index. On the list-of-rows model the net effect is a filter keeping exactly
the rows with `elev >= elevation_threshold`; the input list is not
modified. -/
def filter_higher_elevs (df : List ObsD) (elevation_threshold : ℝ) : List ObsD :=
  df.filter (fun r => decide (elevation_threshold ≤ r.elev))

/-- Maximum of a list of reals, the `("s4_denoised", "max")` aggregation of
a pandas group. Groups produced by `groupby` are never empty, so the `[]`
case (where pandas would give `NaN`) is unreachable in the pipeline. -/
def listMax : List ℝ → ℝ
  | [] => 0
  | [x] => x
  | x :: y :: t => max x (listMax (y :: t))

/-- Per-timestamp aggregate produced by the `groupby(...).agg(...)` call
(`scintill_ai/preprocess.py`, lines 78-87): distinct-satellite count,
counts of mild/strong classified observations, max and mean of the
denoised S4. -/
structure AggRow where
  time_utc : ℤ
  n_sat : ℕ
  n_sat_mild_scint : ℕ
  n_sat_strong_scint : ℕ
  s4_max : ℝ
  s4_mean : ℝ

/-- Aggregate row after the two percentage assignments
(`scintill_ai/preprocess.py`, lines 89-94). -/
structure AggRowP extends AggRow where
  perc_mild_scint : ℝ
  perc_strong_scint : ℝ

/-- One group of the `groupby(["time_utc"]).agg(...)` call: the rows of
`df_class` whose `time_utc` equals the key `k`, aggregated with
`n_sat = ("svid", "nunique")`, `n_sat_mild_scint = ("is_mild_scint", "sum")`
(a sum of booleans, i.e. a count), likewise for strong, and max/mean of
`s4_denoised`. -/
def aggregate_group (k : ℤ) (rows : List ObsC) : AggRow :=
  let g := rows.filter (fun r => r.time_utc == k)
  { time_utc := k
    n_sat := ((g.map (fun r => r.svid)).dedup).length
    n_sat_mild_scint := g.countP (fun r => r.is_mild_scint)
    n_sat_strong_scint := g.countP (fun r => r.is_strong_scint)
    s4_max := listMax (g.map (fun r => r.s4_denoised))
    s4_mean := (g.map (fun r => r.s4_denoised)).sum / (g.length : ℝ) }

/-- The two percentage columns (`scintill_ai/preprocess.py`, lines 89-94):
`np.round(n_sat_*_scint.div(n_sat), 3)`, pandas `div` being true
division. -/
def add_percs (a : AggRow) : AggRowP :=
  { toAggRow := a
    perc_mild_scint := np_round3 ((a.n_sat_mild_scint : ℝ) / (a.n_sat : ℝ))
    perc_strong_scint := np_round3 ((a.n_sat_strong_scint : ℝ) / (a.n_sat : ℝ)) }

/-- The in-place column assignment `df["s4_denoised"] = denoise_S4(df["s4"],
df["s4_correction"])` (`scintill_ai/preprocess.py`, line 62), acting on one
row. -/
def add_denoised (r : Obs) : ObsD :=
  { toObs := r, s4_denoised := denoise_S4_val r.s4 r.s4_correction }

/-- The two `np.where` classification assignments
(`scintill_ai/preprocess.py`, lines 66-76), acting on one row of the
filtered copy. -/
def classify (lower_S4_threshold higher_S4_threshold : ℝ) (r : ObsD) : ObsC :=
  { toObsD := r
    is_mild_scint := decide (lower_S4_threshold ≤ r.s4_denoised)
    is_strong_scint := decide (higher_S4_threshold ≤ r.s4_denoised) }

/-- Embedding of `preprocess_S4_data` (`scintill_ai/preprocess.py`, lines
56-96) with the caller-visible state of the argument frame made explicit.
Line 62 mutates the caller's frame in place, adding `s4_denoised`;
`filter_higher_elevs` then works on a copy, so the classification columns
and the aggregation never touch the caller's frame again. The first
component is the caller's frame after the call; the second is the returned
aggregate. Group keys are the distinct `time_utc` values of the filtered
rows, sorted ascending as pandas `groupby(sort=True)` does. -/
def preprocess_S4_data_state (df : List Obs)
    (elevation_threshold lower_S4_threshold higher_S4_threshold : ℝ) :
    List ObsD × List AggRowP :=
  let df1 := df.map add_denoised
  let df_high_elev := filter_higher_elevs df1 elevation_threshold
  let df_class := df_high_elev.map (classify lower_S4_threshold higher_S4_threshold)
  let keys := List.insertionSort (fun a b => a ≤ b)
    ((df_class.map (fun r => r.time_utc)).dedup)
  (df1, (keys.map (fun k => aggregate_group k df_class)).map add_percs)

/-- Return value of `preprocess_S4_data` (`scintill_ai/preprocess.py`,
lines 56-96): the aggregate frame. -/
def preprocess_S4_data (df : List Obs)
    (elevation_threshold lower_S4_threshold higher_S4_threshold : ℝ) :
    List AggRowP :=
  (preprocess_S4_data_state df elevation_threshold lower_S4_threshold
    higher_S4_threshold).2

end


/-- One console line written by `show(j)` inside `progressbar`
(`scintill_ai/utils.py`, lines 8-14): the prefix, a bar of `x` hash marks
and `size - x` dots with `x = int(size * j / count)`, and the truncated
percentage, ending in a carriage return. -/
def show_line (pre : String) (size count j : ℕ) : String :=
  pre ++ "[" ++ String.mk (List.replicate (size * j / count) '#') ++
    String.mk (List.replicate (size - size * j / count) '.') ++ "] " ++
    toString (100 * j / count) ++ "%\r"

/-- Embedding of the generator `progressbar` (`scintill_ai/utils.py`):
`count = len(iterable)`; `show(0)` runs before the first element is
yielded and computes `size * 0 / count`, which raises `ZeroDivisionError`
when the iterable is empty; otherwise each element is yielded in order,
`show(i + 1)` is printed after it, and a final newline is written. The
result of a complete run is the pair of the yielded elements and the
console output. -/
def progressbar {α : Type} (iterable : List α) (pre : String) (size : ℕ) :
    Except String (List α × List String) :=
  if iterable.length = 0 then Except.error "ZeroDivisionError: division by zero"
  else Except.ok (iterable,
    (List.range (iterable.length + 1)).map (show_line pre size iterable.length)
      ++ ["\n"])

/-- Embedding of the body of `get_solar_data` (`scintill_ai/io.py`, lines
174-230) up to the frame construction: the function performs one HTTP GET
with no retry, raises unless `response.status_code != 200` is false, and on
success drops the comment lines starting with `#` and parses the rest. The
parsed data lines are returned; the numeric-column extraction is not needed
by any claim and is left as the raw lines. -/
def get_solar_data (response_status : ℕ) (body_lines : List String) :
    Except String (List String) :=
  if response_status ≠ 200 then
    Except.error "Error while downloading data"
  else
    Except.ok (body_lines.filter (fun l => !(l.startsWith "#")))

/-- Property of an HTTP status code of lying in the 2xx success class. -/
def is2xx (status : ℕ) : Prop := 200 ≤ status ∧ status < 300

/-- Test used on each line of the OMNIWeb file (`scintill_ai/io.py`, line
105): `re.match(r"^\d{4}", line)`, i.e. the line begins with four digits. -/
def startsWithFourDigits (l : String) : Bool :=
  ((l.toList.take 4).length == 4) && (l.toList.take 4).all Char.isDigit

/-- Header prefix searched for by `read_omniweb_file` (`scintill_ai/io.py`,
line 98). -/
def omniHeader : String := "YYYY DOY HR MN"

/-- Python `line.split()`: split on whitespace, dropping empty pieces. -/
def pySplit (l : String) : List String :=
  (l.split Char.isWhitespace).filter (fun s => !(s == ""))

/-- Column names of the OMNIWeb file (`scintill_ai/io.py`, lines 72-84). -/
def OMNI_COLS : List String :=
  ["year", "doy", "hour", "minute", "id_imf_spacecraft", "id_swp_spacecraft",
   "field_magnitude_avg", "wind_speed", "wind_density", "wind_pressure",
   "eletric_field"]

/-- Embedding of `read_omniweb_file` (`scintill_ai/io.py`, lines 54-126)
from the header search onward; the input is the list of lines of the file
after the `re.sub(r"<.*?>", "", ...)` tag stripping and the
`strip().split("\n")` of lines 69-70. If no line starts with the header
prefix, the `StopIteration` of the `next(...)` search is caught and an
empty frame is returned. Otherwise the lines after the first header line
that are non-blank and begin with four digits are split and zipped with the
column names, as `dict(zip(COLS, values))` does; with no such data line the
subsequent `df["year"]` access on a frame with no columns raises a
`KeyError`. The sentinel replacement, float conversion and datetime index
of lines 111-124 are not needed by any claim and are not modelled. -/
def read_omniweb_file (lines : List String) :
    Except String (List (List (String × String))) :=
  match lines.find? (fun l => l.startsWith omniHeader) with
  | none => Except.ok []
  | some _ =>
    let after := (lines.dropWhile (fun l => !(l.startsWith omniHeader))).tail
    let data := after.filter (fun l => !(l.trim == "") && startsWithFourDigits l)
    if data.isEmpty then Except.error "KeyError"
    else Except.ok (data.map (fun l => OMNI_COLS.zip (pySplit l)))

/-- Embedding of `get_gnss_data` (`scintill_ai/io.py`, lines 263-298): the
per-day query builds a URL and calls `pd.read_csv(url)` inside a `try`;
any exception is swallowed and an empty frame (the requested columns, zero
rows) is returned instead. The network call is abstracted as the function
`read_csv` from the query day to either a frame or an exception. -/
def get_gnss_data {E : Type} (read_csv : ℤ → Except E (List Obs)) (day : ℤ) :
    List Obs :=
  match read_csv day with
  | Except.ok df => df
  | Except.error _ => []

noncomputable section

/-- Configuration constant `ELEVATION_THRESHOLD` (`scintill_ai/__init__.py`,
line 7). -/
def ELEVATION_THRESHOLD : ℝ := 60

/-- Configuration constant `LW_S4_THRESHOLD` (`scintill_ai/__init__.py`,
line 8). -/
def LW_S4_THRESHOLD : ℝ := 0.4

/-- Configuration constant `UP_S4_THRESHOLD` (`scintill_ai/__init__.py`,
line 9). -/
def UP_S4_THRESHOLD : ℝ := 0.7

/-- Embedding of `get_aggregated_gnss_data` (`scintill_ai/io.py`, lines
301-345): the requested date range is iterated through `progressbar`; for
each day `get_gnss_data` is queried and the result fed through
`preprocess_S4_data` with the configured thresholds; the per-day aggregates
are concatenated with `pd.concat(dfs, ignore_index=True)`. The politeness
`sleep` has no observable effect and is not modelled. `pd.concat` raises on
an empty list of frames, but that point is unreachable: on an empty range
`progressbar` has already raised at its first `show(0)`. -/
def get_aggregated_gnss_data {E : Type} (read_csv : ℤ → Except E (List Obs))
    (date_range : List ℤ) : Except String (List AggRowP) :=
  match progressbar date_range "Downloading -- time for a ☕ " 50 with
  | Except.error e => Except.error e
  | Except.ok (days, _) =>
    Except.ok ((days.map (fun dt =>
      preprocess_S4_data (get_gnss_data read_csv dt) ELEVATION_THRESHOLD
        LW_S4_THRESHOLD UP_S4_THRESHOLD)).flatten)

end

section SqrtLemmas

/-- The real part of the principal complex square root of a real number `x`
is `Real.sqrt x`: for `x ≥ 0` it is the usual square root, and for `x < 0`
the principal square root is purely imaginary, so the real part is `0`
(which is also the value of `Real.sqrt` on negatives). -/
theorem emathSqrtRe_eq_sqrt (x : ℝ) : emathSqrtRe x = Real.sqrt x := by
  unfold emathSqrtRe
  rcases le_or_lt 0 x with hx | hx
  · have h2 : ((1 : ℂ) / 2) = ((1 / 2 : ℝ) : ℂ) := by norm_num
    rw [h2, ← Complex.ofReal_cpow hx, Complex.ofReal_re, Real.sqrt_eq_rpow]
  · have hx0 : (x : ℂ) ≠ 0 := by
      simpa using ne_of_lt hx
    rw [Complex.cpow_def_of_ne_zero hx0, Complex.exp_re]
    have him : (Complex.log x * ((1 : ℂ) / 2)).im = Real.pi / 2 := by
      simp [Complex.mul_im, Complex.log_im, Complex.arg_ofReal_of_neg hx]
      ring
    rw [him, Real.cos_pi_div_two, mul_zero,
      Eq.symm ((Real.sqrt_eq_zero').mpr (le_of_lt hx))]

theorem npRound_intCast (n : ℤ) : npRound (n : ℝ) = n := by
  unfold npRound
  rw [Int.floor_intCast]
  rw [if_pos]
  norm_num

theorem np_round3_div_1000 (k : ℤ) : np_round3 ((k : ℝ) / 1000) = (k : ℝ) / 1000 := by
  unfold np_round3
  have h : (1000 : ℝ) * ((k : ℝ) / 1000) = (k : ℝ) := by ring
  rw [h, npRound_intCast]

end SqrtLemmas

section PipelineLemmas

/-- The elementwise denoising equals `np.round` of `Real.sqrt` of the
radicand: the complex detour of `np.emath.sqrt` collapses to the real
square root, which is `0` on negative radicands. -/
theorem denoise_S4_val_eq_sqrt (s c : ℝ) :
    denoise_S4_val s c = np_round3 (Real.sqrt (s ^ 2 - c ^ 2)) := by
  unfold denoise_S4_val
  rw [emathSqrtRe_eq_sqrt]

/-- Values that are already integral multiples of `1/1000` are fixed by
3-decimal rounding. -/
theorem np_round3_exact (x : ℝ) (k : ℤ) (h : 1000 * x = (k : ℝ)) :
    np_round3 x = x := by
  unfold np_round3
  rw [h, npRound_intCast, ← h]
  ring

theorem denoise_S4_val_neg (s c : ℝ) (hs : 0 ≤ s) (hc : s < c) :
    denoise_S4_val s c = 0 := by
  rw [denoise_S4_val_eq_sqrt]
  have h1 : s ^ 2 - c ^ 2 ≤ 0 := by nlinarith
  rw [Real.sqrt_eq_zero'.mpr h1]
  exact np_round3_exact 0 0 (by norm_num)

theorem denoise_S4_val_example : denoise_S4_val 0.5 0.3 = 0.4 := by
  rw [denoise_S4_val_eq_sqrt]
  have h : (0.5 : ℝ) ^ 2 - 0.3 ^ 2 = 0.4 ^ 2 := by norm_num
  rw [h, Real.sqrt_sq (by norm_num : (0 : ℝ) ≤ 0.4)]
  exact np_round3_exact 0.4 400 (by norm_num)

/-- With a zero correction term the denoising fixes any nonnegative value
with at most three decimal places. -/
theorem denoise_S4_val_zero_corr (s : ℝ) (hs : 0 ≤ s) (k : ℤ)
    (h : 1000 * s = (k : ℝ)) : denoise_S4_val s 0 = s := by
  rw [denoise_S4_val_eq_sqrt]
  have h0 : s ^ 2 - 0 ^ 2 = s ^ 2 := by ring
  rw [h0, Real.sqrt_sq hs]
  exact np_round3_exact s k h

theorem preprocess_empty (e l h : ℝ) : preprocess_S4_data [] e l h = [] := rfl

theorem get_gnss_data_error {E : Type} (read_csv : ℤ → Except E (List Obs))
    (d : ℤ) (err : E) (h : read_csv d = Except.error err) :
    get_gnss_data read_csv d = [] := by
  unfold get_gnss_data
  rw [h]

theorem get_gnss_data_ok {E : Type} (read_csv : ℤ → Except E (List Obs))
    (d : ℤ) (rows : List Obs) (h : read_csv d = Except.ok rows) :
    get_gnss_data read_csv d = rows := by
  unfold get_gnss_data
  rw [h]

/-- On a nonempty date range the whole multi-day aggregation succeeds and
is the concatenation of the per-day pipelines. -/
theorem get_aggregated_ok {E : Type} (read_csv : ℤ → Except E (List Obs))
    (date_range : List ℤ) (h : date_range ≠ []) :
    get_aggregated_gnss_data read_csv date_range =
      Except.ok ((date_range.map (fun dt =>
        preprocess_S4_data (get_gnss_data read_csv dt) ELEVATION_THRESHOLD
          LW_S4_THRESHOLD UP_S4_THRESHOLD)).flatten) := by
  unfold get_aggregated_gnss_data progressbar
  rw [if_neg (by simpa using h)]

end PipelineLemmas

/-- Claim C1: for every pair of raw S4 value and correction value, `denoise_S4`
returns `round(real_part(sqrt(s4^2 - c^2)), 3)`; for `s4 = 0.5, c = 0.3`
it returns `0.4`; for every pair of a nonnegative raw S4 value and a larger
correction (e.g. `s4 = 0.1, c = 0.5`) the radicand is negative, the real
part of the principal-branch complex square root is `0`, and the result is
`0.0` with no error raised. -/
theorem C1_denoise_S4 :
    (∀ s4_series s4_corr_series : List ℝ,
      denoise_S4 s4_series s4_corr_series =
        List.zipWith (fun s c => np_round3 (Real.sqrt (s ^ 2 - c ^ 2)))
          s4_series s4_corr_series) ∧
    denoise_S4 [0.5] [0.3] = [0.4] ∧
    (∀ s c : ℝ, 0 ≤ s → s < c → denoise_S4 [s] [c] = [0]) ∧
    denoise_S4 [0.1] [0.5] = [0] := by
  refine ⟨?_, ?_, ?_, ?_⟩
  · intro xs ys
    unfold denoise_S4
    congr 1
    funext s c
    exact denoise_S4_val_eq_sqrt s c
  · show [denoise_S4_val 0.5 0.3] = [0.4]
    rw [denoise_S4_val_example]
  · intro s c hs hc
    show [denoise_S4_val s c] = [0]
    rw [denoise_S4_val_neg s c hs hc]
  · show [denoise_S4_val 0.1 0.5] = [0]
    rw [denoise_S4_val_neg 0.1 0.5 (by norm_num) (by norm_num)]

/-- Witness for C1 at the concrete input `s4 = 0.25`, `c = 0.6`. -/
theorem C1_denoise_S4_witness : denoise_S4 [0.25] [0.6] = [0] :=
  C1_denoise_S4.2.2.1 0.25 0.6 (by norm_num) (by norm_num)

/-- Claim C2: `filter_higher_elevs` retains exactly the rows with
`elev >= threshold` (every retained row satisfies the threshold, every row
of the input satisfying it is retained, rows below it are absent), and the
boundary is inclusive: at threshold 60 a row with `elev = 59.999` is
excluded and a row with `elev = 60.0` is included. -/
theorem C2_filter_higher_elevs :
    (∀ (df : List ObsD) (t : ℝ) (r : ObsD),
      r ∈ filter_higher_elevs df t ↔ r ∈ df ∧ t ≤ r.elev) ∧
    filter_higher_elevs [⟨⟨0, 1, 59.999, 0, 0⟩, 0⟩] 60 = [] ∧
    filter_higher_elevs [⟨⟨0, 1, 60, 0, 0⟩, 0⟩] 60 =
      [⟨⟨0, 1, 60, 0, 0⟩, 0⟩] := by
  refine ⟨?_, ?_, ?_⟩
  · intro df t r
    simp [filter_higher_elevs, List.mem_filter]
  · norm_num [filter_higher_elevs, List.filter_cons, List.filter_nil]
  · norm_num [filter_higher_elevs, List.filter_cons, List.filter_nil]

/-- Claim C5: on an empty observation frame the pipeline returns an empty
aggregate frame and no error is raised (the embedding is a total
function). -/
theorem C5_preprocess_empty_input :
    ∀ elevation_threshold lower_S4_threshold higher_S4_threshold : ℝ,
      preprocess_S4_data [] elevation_threshold lower_S4_threshold
        higher_S4_threshold = [] := by
  intro e l h
  exact preprocess_empty e l h

/-- Claim C6: if the per-day query fails for one day of a multi-day range, the
exception is swallowed inside `get_gnss_data`, that day contributes the
result of preprocessing an empty frame (which is empty), every other
successfully fetched day still contributes the preprocessing of its own
data, and the overall call returns a result (`Except.ok`) instead of
aborting. -/
theorem C6_per_day_resilience :
    ∀ (E : Type) (read_csv : ℤ → Except E (List Obs)) (date_range : List ℤ)
      (d : ℤ) (err : E),
      d ∈ date_range → read_csv d = Except.error err →
      get_aggregated_gnss_data read_csv date_range =
        Except.ok ((date_range.map (fun dt =>
          preprocess_S4_data (get_gnss_data read_csv dt) ELEVATION_THRESHOLD
            LW_S4_THRESHOLD UP_S4_THRESHOLD)).flatten) ∧
      preprocess_S4_data (get_gnss_data read_csv d) ELEVATION_THRESHOLD
        LW_S4_THRESHOLD UP_S4_THRESHOLD = [] ∧
      (∀ d' rows, read_csv d' = Except.ok rows →
        preprocess_S4_data (get_gnss_data read_csv d') ELEVATION_THRESHOLD
          LW_S4_THRESHOLD UP_S4_THRESHOLD =
        preprocess_S4_data rows ELEVATION_THRESHOLD LW_S4_THRESHOLD
          UP_S4_THRESHOLD) := by
  intro E read_csv date_range d err hmem herr
  refine ⟨?_, ?_, ?_⟩
  · exact get_aggregated_ok read_csv date_range (List.ne_nil_of_mem hmem)
  · rw [get_gnss_data_error read_csv d err herr]
    exact preprocess_empty _ _ _
  · intro d' rows hok
    rw [get_gnss_data_ok read_csv d' rows hok]

/-- Witness for C6: a two-day range where day 0 fails and day 1 succeeds
with no observations; the call returns `Except.ok` and the failing day
contributes no rows. -/
theorem C6_per_day_resilience_witness :
    get_aggregated_gnss_data
        (fun d => if d = 0 then (Except.error () : Except Unit (List Obs))
          else Except.ok []) [0, 1] =
      Except.ok (([0, 1].map (fun dt =>
        preprocess_S4_data
          (get_gnss_data (fun d => if d = 0 then
              (Except.error () : Except Unit (List Obs)) else Except.ok []) dt)
          ELEVATION_THRESHOLD LW_S4_THRESHOLD UP_S4_THRESHOLD)).flatten) ∧
    preprocess_S4_data
        (get_gnss_data (fun d => if d = 0 then
            (Except.error () : Except Unit (List Obs)) else Except.ok []) 0)
        ELEVATION_THRESHOLD LW_S4_THRESHOLD UP_S4_THRESHOLD = [] := by
  have h := C6_per_day_resilience Unit
    (fun d => if d = 0 then (Except.error () : Except Unit (List Obs))
      else Except.ok []) [0, 1] 0 () (by simp) (by simp)
  exact ⟨h.1, h.2.1⟩

/-- Claim C7 counterexample: status 201 is a 2xx success status, yet
`get_solar_data` raises (`response.status_code != 200` is the only check),
contradicting the claim that an error is raised if and only if the status
is not 2xx. -/
theorem C7_counterexample :
    is2xx 201 ∧ get_solar_data 201 [] = Except.error "Error while downloading data" := by
  constructor
  · exact ⟨by norm_num, by norm_num⟩
  · rfl

/-- Claim C7 as amended: `get_solar_data` raises if and only if the response
status differs from 200 exactly (so 2xx statuses other than 200 also
raise), with no retry; on status 200 it proceeds to drop the `#` comment
lines and parse the remainder. -/
theorem C7_get_solar_data :
    ∀ (status : ℕ) (body_lines : List String),
      ((∃ msg, get_solar_data status body_lines = Except.error msg) ↔
        status ≠ 200) ∧
      (status = 200 →
        get_solar_data status body_lines =
          Except.ok (body_lines.filter (fun l => !(l.startsWith "#")))) := by
  intro status body_lines
  unfold get_solar_data
  by_cases h : status = 200
  · subst h
    simp
  · simp [h]

/-- Witness for C7 at status 200 with an empty body. -/
theorem C7_get_solar_data_witness :
    get_solar_data 200 [] = Except.ok [] :=
  (C7_get_solar_data 200 []).2 rfl

/-- Claim C8: an OMNIWeb file none of whose (tag-stripped) lines starts with the
header prefix `YYYY DOY HR MN` yields an empty frame, not an error. -/
theorem C8_read_omniweb_no_header :
    ∀ lines : List String,
      (∀ l ∈ lines, l.startsWith omniHeader = false) →
      read_omniweb_file lines = Except.ok [] := by
  intro lines h
  unfold read_omniweb_file
  have hnone : lines.find? (fun l => l.startsWith omniHeader) = none := by
    rw [List.find?_eq_none]
    intro x hx
    simp [h x hx]
  rw [hnone]

/-- Witness for C8 on a concrete header-less file. -/
theorem C8_read_omniweb_no_header_witness :
    read_omniweb_file ["<html>", "no data today", ""] = Except.ok [] :=
  C8_read_omniweb_no_header ["<html>", "no data today", ""] (by decide)

/-- Claim C9: the denoised column is computed in place on the caller's frame —
after the call the caller's frame is the original rows, each with all its
pre-existing fields unchanged and with the new `s4_denoised` column equal
to `denoise_S4` of the `s4` and `s4_correction` columns — and the
subsequent filtering/classification steps never modify the caller's frame
(its final state does not depend on any of the three thresholds, because
`filter_higher_elevs` works on a copy). -/
theorem C9_denoise_in_place :
    ∀ (df : List Obs) (e l h : ℝ),
      ((preprocess_S4_data_state df e l h).1).map (fun r => r.toObs) = df ∧
      ((preprocess_S4_data_state df e l h).1).map (fun r => r.s4_denoised) =
        denoise_S4 (df.map (fun r => r.s4)) (df.map (fun r => r.s4_correction)) ∧
      ((preprocess_S4_data_state df e l h).1).length = df.length ∧
      (∀ e' l' h' : ℝ,
        (preprocess_S4_data_state df e l h).1 =
          (preprocess_S4_data_state df e' l' h').1) := by
  intro df e l h
  refine ⟨?_, ?_, ?_, fun e' l' h' => rfl⟩
  · show (df.map add_denoised).map (fun r => r.toObs) = df
    induction df with
    | nil => rfl
    | cons a t ih => simp [add_denoised, ih]
  · show (df.map add_denoised).map (fun r => r.s4_denoised) =
      denoise_S4 (df.map (fun r => r.s4)) (df.map (fun r => r.s4_correction))
    induction df with
    | nil => rfl
    | cons a t ih => simp [add_denoised, denoise_S4, ih]
  · show ((df.map add_denoised)).length = df.length
    exact List.length_map df add_denoised

/-- Claim C10 counterexample: on the empty iterable the `progressbar` wrapper
does not yield the (zero) elements of the iterable and finish; its very
first `show(0)` call divides by `count = len(iterable) = 0` and raises
`ZeroDivisionError` — so the wrapper is not purely cosmetic for every
iterable with a defined length. -/
theorem C10_counterexample :
    progressbar ([] : List ℤ) "" 50 =
      Except.error "ZeroDivisionError: division by zero" := rfl

/-- Claim C10 as amended: for every nonempty iterable, `progressbar` yields
exactly the elements of the underlying iterable, in order, with the same
multiplicity, the console output being returned separately; consequently
`get_aggregated_gnss_data` on a nonempty date range processes exactly the
days of the range in order — never skipping, duplicating or reordering a
day. On an empty iterable the wrapper instead raises a division-by-zero
error before yielding anything. -/
theorem C10_progressbar_yields :
    (∀ (α : Type) (l : List α) (pre : String) (size : ℕ),
      l ≠ [] → ∃ out, progressbar l pre size = Except.ok (l, out)) ∧
    (∀ (E : Type) (read_csv : ℤ → Except E (List Obs)) (date_range : List ℤ),
      date_range ≠ [] →
      get_aggregated_gnss_data read_csv date_range =
        Except.ok ((date_range.map (fun dt =>
          preprocess_S4_data (get_gnss_data read_csv dt) ELEVATION_THRESHOLD
            LW_S4_THRESHOLD UP_S4_THRESHOLD)).flatten)) := by
  constructor
  · intro α l pre size h
    unfold progressbar
    rw [if_neg (by simpa using h)]
    exact ⟨_, rfl⟩
  · intro E read_csv date_range h
    exact get_aggregated_ok read_csv date_range h

/-- Witness for C10: a singleton iterable is yielded unchanged. -/
theorem C10_progressbar_yields_witness :
    ∃ out, progressbar [(7 : ℤ)] "" 50 = Except.ok ([7], out) :=
  C10_progressbar_yields.1 ℤ [7] "" 50 (by simp)

section AggregationLemmas

/-- The value of `npRound` is the floor or, when the fractional part is at
least one half, possibly the floor plus one. -/
theorem npRound_cases (y : ℝ) :
    npRound y = (⌊y⌋ : ℝ) ∨
      (npRound y = (⌊y⌋ : ℝ) + 1 ∧ 1 / 2 ≤ y - ⌊y⌋) := by
  unfold npRound
  by_cases h1 : y - ⌊y⌋ < 1 / 2
  · rw [if_pos h1]
    exact Or.inl rfl
  · rw [if_neg h1]
    by_cases h2 : 1 / 2 < y - ⌊y⌋
    · rw [if_pos h2]
      exact Or.inr ⟨rfl, le_of_lt h2⟩
    · rw [if_neg h2]
      by_cases h3 : Even ⌊y⌋
      · rw [if_pos h3]
        exact Or.inl rfl
      · rw [if_neg h3]
        exact Or.inr ⟨rfl, le_of_not_lt h1⟩

/-- Half-to-even rounding keeps a value between any integer bounds of its
argument. -/
theorem npRound_bounds (y : ℝ) (a b : ℤ) (ha : (a : ℝ) ≤ y)
    (hb : y ≤ (b : ℝ)) : (a : ℝ) ≤ npRound y ∧ npRound y ≤ (b : ℝ) := by
  have hfa : a ≤ ⌊y⌋ := Int.le_floor.mpr ha
  have hfb : ⌊y⌋ ≤ b := by
    have h := Int.floor_le_floor hb
    rwa [Int.floor_intCast] at h
  have hfl : (⌊y⌋ : ℝ) ≤ y := Int.floor_le y
  rcases npRound_cases y with h | ⟨h, hh⟩
  · rw [h]
    exact ⟨by exact_mod_cast hfa, by exact_mod_cast hfb⟩
  · rw [h]
    constructor
    · have hcast : (a : ℝ) ≤ (⌊y⌋ : ℝ) := by exact_mod_cast hfa
      linarith
    · have hlow : (⌊y⌋ : ℝ) ≤ y - 1 / 2 := by linarith
      have hltr : (⌊y⌋ : ℝ) < (b : ℝ) := by linarith
      have hlt : ⌊y⌋ < b := by exact_mod_cast hltr
      have hle : ⌊y⌋ + 1 ≤ b := hlt
      exact_mod_cast hle

/-- 3-decimal rounding maps the unit interval to itself. -/
theorem np_round3_unit (x : ℝ) (h0 : 0 ≤ x) (h1 : x ≤ 1) :
    0 ≤ np_round3 x ∧ np_round3 x ≤ 1 := by
  unfold np_round3
  have hb := npRound_bounds (1000 * x) 0 1000 (by push_cast; linarith)
    (by push_cast; linarith)
  have hb1 := hb.1
  have hb2 := hb.2
  push_cast at hb1 hb2
  constructor
  · linarith
  · linarith

/-- Every aggregate row produced by the pipeline is the percentage
completion of the aggregation of one group key of the classified frame. -/
theorem preprocess_result_shape (df : List Obs) (e l h : ℝ) :
    ∀ a ∈ preprocess_S4_data df e l h,
      ∃ k, k ∈ ((((filter_higher_elevs (df.map add_denoised) e).map
            (classify l h)).map (fun r => r.time_utc)).dedup) ∧
        a = add_percs (aggregate_group k
          ((filter_higher_elevs (df.map add_denoised) e).map
            (classify l h))) := by
  intro a ha
  simp only [preprocess_S4_data, preprocess_S4_data_state] at ha
  rcases List.mem_map.mp ha with ⟨b, hb, rfl⟩
  rcases List.mem_map.mp hb with ⟨k, hk, rfl⟩
  exact ⟨k, (List.perm_insertionSort _ _).mem_iff.mp hk, rfl⟩

/-- Aggregating one key of a classified frame counts, in the group of rows
of that key, the distinct satellites, the observations at or above each
threshold, and the max, sum and length of the denoised column. -/
theorem aggregate_group_classified (k : ℤ) (F : List ObsD) (l h : ℝ) :
    aggregate_group k (F.map (classify l h)) =
      { time_utc := k
        n_sat := (((F.filter (fun r => r.time_utc == k)).map
          (fun r => r.svid)).dedup).length
        n_sat_mild_scint := (F.filter (fun r => r.time_utc == k)).countP
          (fun r => decide (l ≤ r.s4_denoised))
        n_sat_strong_scint := (F.filter (fun r => r.time_utc == k)).countP
          (fun r => decide (h ≤ r.s4_denoised))
        s4_max := listMax ((F.filter (fun r => r.time_utc == k)).map
          (fun r => r.s4_denoised))
        s4_mean := ((F.filter (fun r => r.time_utc == k)).map
            (fun r => r.s4_denoised)).sum /
          ((F.filter (fun r => r.time_utc == k)).length : ℝ) } := by
  have hfil : (F.map (classify l h)).filter (fun r => r.time_utc == k) =
      (F.filter (fun r => r.time_utc == k)).map (classify l h) := by
    rw [List.filter_map]
    rfl
  simp only [aggregate_group, hfil, List.map_map, List.countP_map,
    List.length_map]
  rfl

end AggregationLemmas

section FixtureEvaluation

/-- Evaluation of the pipeline on the spec fixture: one timestamp, four
satellites, denoised values `0.1, 0.5, 0.75, 0.9` (zero corrections),
elevation 70 above the threshold 60, S4 thresholds `0.4` and `0.7`. -/
theorem preprocess_fixture :
    preprocess_S4_data
      [⟨0, 1, 70, 0.1, 0⟩, ⟨0, 2, 70, 0.5, 0⟩, ⟨0, 3, 70, 0.75, 0⟩,
        ⟨0, 4, 70, 0.9, 0⟩] 60 0.4 0.7 =
      [⟨⟨0, 4, 3, 2, 0.9, 0.5625⟩, 0.75, 0.5⟩] := by
  have hv1 : denoise_S4_val 0.1 0 = 0.1 :=
    denoise_S4_val_zero_corr 0.1 (by norm_num) 100 (by norm_num)
  have hv2 : denoise_S4_val 0.5 0 = 0.5 :=
    denoise_S4_val_zero_corr 0.5 (by norm_num) 500 (by norm_num)
  have hv3 : denoise_S4_val 0.75 0 = 0.75 :=
    denoise_S4_val_zero_corr 0.75 (by norm_num) 750 (by norm_num)
  have hv4 : denoise_S4_val 0.9 0 = 0.9 :=
    denoise_S4_val_zero_corr 0.9 (by norm_num) 900 (by norm_num)
  have h1 : ([⟨0, 1, 70, 0.1, 0⟩, ⟨0, 2, 70, 0.5, 0⟩, ⟨0, 3, 70, 0.75, 0⟩,
      ⟨0, 4, 70, 0.9, 0⟩] : List Obs).map add_denoised =
      [⟨⟨0, 1, 70, 0.1, 0⟩, 0.1⟩, ⟨⟨0, 2, 70, 0.5, 0⟩, 0.5⟩,
       ⟨⟨0, 3, 70, 0.75, 0⟩, 0.75⟩, ⟨⟨0, 4, 70, 0.9, 0⟩, 0.9⟩] := by
    simp [add_denoised, hv1, hv2, hv3, hv4]
  have h2 : filter_higher_elevs
      [⟨⟨0, 1, 70, 0.1, 0⟩, 0.1⟩, ⟨⟨0, 2, 70, 0.5, 0⟩, 0.5⟩,
       ⟨⟨0, 3, 70, 0.75, 0⟩, 0.75⟩, ⟨⟨0, 4, 70, 0.9, 0⟩, 0.9⟩] 60 =
      [⟨⟨0, 1, 70, 0.1, 0⟩, 0.1⟩, ⟨⟨0, 2, 70, 0.5, 0⟩, 0.5⟩,
       ⟨⟨0, 3, 70, 0.75, 0⟩, 0.75⟩, ⟨⟨0, 4, 70, 0.9, 0⟩, 0.9⟩] := by
    norm_num [filter_higher_elevs, List.filter_cons, List.filter_nil]
  have h3 : ([⟨⟨0, 1, 70, 0.1, 0⟩, 0.1⟩, ⟨⟨0, 2, 70, 0.5, 0⟩, 0.5⟩,
       ⟨⟨0, 3, 70, 0.75, 0⟩, 0.75⟩, ⟨⟨0, 4, 70, 0.9, 0⟩, 0.9⟩] :
        List ObsD).map (classify 0.4 0.7) =
      [⟨⟨⟨0, 1, 70, 0.1, 0⟩, 0.1⟩, false, false⟩,
       ⟨⟨⟨0, 2, 70, 0.5, 0⟩, 0.5⟩, true, false⟩,
       ⟨⟨⟨0, 3, 70, 0.75, 0⟩, 0.75⟩, true, true⟩,
       ⟨⟨⟨0, 4, 70, 0.9, 0⟩, 0.9⟩, true, true⟩] := by
    norm_num [classify]
  simp only [preprocess_S4_data, preprocess_S4_data_state]
  rw [h1, h2, h3]
  have h4 : ([⟨⟨⟨0, 1, 70, 0.1, 0⟩, 0.1⟩, false, false⟩,
       ⟨⟨⟨0, 2, 70, 0.5, 0⟩, 0.5⟩, true, false⟩,
       ⟨⟨⟨0, 3, 70, 0.75, 0⟩, 0.75⟩, true, true⟩,
       ⟨⟨⟨0, 4, 70, 0.9, 0⟩, 0.9⟩, true, true⟩] : List ObsC).map
        (fun r => r.time_utc) = [0, 0, 0, 0] := by
    simp
  rw [h4]
  have h5 : ([0, 0, 0, 0] : List ℤ).dedup = [0] := by decide
  rw [h5]
  have h6 : List.insertionSort (fun a b => a ≤ b) ([0] : List ℤ) = [0] := rfl
  rw [h6]
  simp only [List.map_cons, List.map_nil]
  have h7 : aggregate_group 0
      [⟨⟨⟨0, 1, 70, 0.1, 0⟩, 0.1⟩, false, false⟩,
       ⟨⟨⟨0, 2, 70, 0.5, 0⟩, 0.5⟩, true, false⟩,
       ⟨⟨⟨0, 3, 70, 0.75, 0⟩, 0.75⟩, true, true⟩,
       ⟨⟨⟨0, 4, 70, 0.9, 0⟩, 0.9⟩, true, true⟩] = ⟨0, 4, 3, 2, 0.9, 0.5625⟩ := by
    have hd : ([1, 2, 3, 4] : List ℤ).dedup = [1, 2, 3, 4] := by decide
    simp only [aggregate_group]
    norm_num [List.filter_cons, List.filter_nil, List.countP_cons,
      List.countP_nil, List.map_cons, List.map_nil, hd, listMax, max_def]
  rw [h7]
  have hp1 : np_round3 ((3 : ℝ) / 4) = 3 / 4 := np_round3_exact _ 750 (by norm_num)
  have hp2 : np_round3 ((2 : ℝ) / 4) = 2 / 4 := np_round3_exact _ 500 (by norm_num)
  have hp3 : np_round3 ((1 : ℝ) / 2) = 1 / 2 := np_round3_exact _ 500 (by norm_num)
  norm_num [add_percs, hp1, hp2, hp3]

end FixtureEvaluation

/-- Claim C3: the aggregation produces one row per distinct `time_utc` of the
elevation-filtered observations (the result's key column is duplicate-free
and a permutation of those distinct timestamps); in each row, `n_sat` is the
number of distinct satellites of the group, `n_sat_mild_scint` and
`n_sat_strong_scint` count the group's observations with `s4_denoised`
at or above the lower and higher thresholds, and `s4_max` / `s4_mean` are
the maximum and mean of `s4_denoised` over the group; on the spec fixture
(one timestamp, four satellites, denoised values `0.1, 0.5, 0.75, 0.9`,
thresholds `0.4` and `0.7`) the result is `n_sat = 4`,
`n_sat_mild_scint = 3`, `n_sat_strong_scint = 2`, `s4_max = 0.9`,
`s4_mean = 0.5625`, `perc_mild_scint = 0.75`, `perc_strong_scint = 0.5`. -/
theorem C3_aggregation :
    (∀ (df : List Obs) (e l h : ℝ),
      List.Nodup ((preprocess_S4_data df e l h).map (fun a => a.time_utc)) ∧
      ((preprocess_S4_data df e l h).map (fun a => a.time_utc)).Perm
        (((filter_higher_elevs (df.map add_denoised) e).map
          (fun r => r.time_utc)).dedup) ∧
      (∀ a ∈ preprocess_S4_data df e l h,
        a.toAggRow =
          { time_utc := a.time_utc
            n_sat := ((((filter_higher_elevs (df.map add_denoised) e).filter
              (fun r => r.time_utc == a.time_utc)).map
                (fun r => r.svid)).dedup).length
            n_sat_mild_scint :=
              ((filter_higher_elevs (df.map add_denoised) e).filter
                (fun r => r.time_utc == a.time_utc)).countP
                  (fun r => decide (l ≤ r.s4_denoised))
            n_sat_strong_scint :=
              ((filter_higher_elevs (df.map add_denoised) e).filter
                (fun r => r.time_utc == a.time_utc)).countP
                  (fun r => decide (h ≤ r.s4_denoised))
            s4_max := listMax
              (((filter_higher_elevs (df.map add_denoised) e).filter
                (fun r => r.time_utc == a.time_utc)).map
                  (fun r => r.s4_denoised))
            s4_mean := (((filter_higher_elevs (df.map add_denoised) e).filter
                (fun r => r.time_utc == a.time_utc)).map
                  (fun r => r.s4_denoised)).sum /
              (((filter_higher_elevs (df.map add_denoised) e).filter
                (fun r => r.time_utc == a.time_utc)).length : ℝ) })) ∧
    preprocess_S4_data
      [⟨0, 1, 70, 0.1, 0⟩, ⟨0, 2, 70, 0.5, 0⟩, ⟨0, 3, 70, 0.75, 0⟩,
        ⟨0, 4, 70, 0.9, 0⟩] 60 0.4 0.7 =
      [⟨⟨0, 4, 3, 2, 0.9, 0.5625⟩, 0.75, 0.5⟩] := by
  refine ⟨?_, preprocess_fixture⟩
  intro df e l h
  have htimes : (preprocess_S4_data df e l h).map (fun a => a.time_utc) =
      List.insertionSort (fun a b => a ≤ b)
        ((((filter_higher_elevs (df.map add_denoised) e).map
          (classify l h)).map (fun r => r.time_utc)).dedup) := by
    simp only [preprocess_S4_data, preprocess_S4_data_state, List.map_map]
    exact List.map_id' _
  have hmt : ((filter_higher_elevs (df.map add_denoised) e).map
      (classify l h)).map (fun r => r.time_utc) =
      (filter_higher_elevs (df.map add_denoised) e).map
        (fun r => r.time_utc) := by
    rw [List.map_map]
    rfl
  refine ⟨?_, ?_, ?_⟩
  · rw [htimes]
    exact (List.perm_insertionSort _ _).nodup_iff.mpr (List.nodup_dedup _)
  · rw [htimes, hmt]
    exact List.perm_insertionSort _ _
  · intro a ha
    obtain ⟨k, hk, rfl⟩ := preprocess_result_shape df e l h a ha
    exact aggregate_group_classified k
      (filter_higher_elevs (df.map add_denoised) e) l h

/-- Witness for C3 at the spec fixture: its one aggregate row satisfies
the group characterisation. -/
theorem C3_aggregation_witness :
    (⟨⟨0, 4, 3, 2, 0.9, 0.5625⟩, 0.75, 0.5⟩ : AggRowP).toAggRow =
      { time_utc := (0 : ℤ)
        n_sat := ((((filter_higher_elevs
          (([⟨0, 1, 70, 0.1, 0⟩, ⟨0, 2, 70, 0.5, 0⟩, ⟨0, 3, 70, 0.75, 0⟩,
            ⟨0, 4, 70, 0.9, 0⟩] : List Obs).map add_denoised) 60).filter
          (fun r => r.time_utc == 0)).map (fun r => r.svid)).dedup).length
        n_sat_mild_scint := ((filter_higher_elevs
          (([⟨0, 1, 70, 0.1, 0⟩, ⟨0, 2, 70, 0.5, 0⟩, ⟨0, 3, 70, 0.75, 0⟩,
            ⟨0, 4, 70, 0.9, 0⟩] : List Obs).map add_denoised) 60).filter
          (fun r => r.time_utc == 0)).countP
            (fun r => decide ((0.4 : ℝ) ≤ r.s4_denoised))
        n_sat_strong_scint := ((filter_higher_elevs
          (([⟨0, 1, 70, 0.1, 0⟩, ⟨0, 2, 70, 0.5, 0⟩, ⟨0, 3, 70, 0.75, 0⟩,
            ⟨0, 4, 70, 0.9, 0⟩] : List Obs).map add_denoised) 60).filter
          (fun r => r.time_utc == 0)).countP
            (fun r => decide ((0.7 : ℝ) ≤ r.s4_denoised))
        s4_max := listMax ((filter_higher_elevs
          (([⟨0, 1, 70, 0.1, 0⟩, ⟨0, 2, 70, 0.5, 0⟩, ⟨0, 3, 70, 0.75, 0⟩,
            ⟨0, 4, 70, 0.9, 0⟩] : List Obs).map add_denoised) 60).filter
          (fun r => r.time_utc == 0) |>.map (fun r => r.s4_denoised))
        s4_mean := (((filter_higher_elevs
          (([⟨0, 1, 70, 0.1, 0⟩, ⟨0, 2, 70, 0.5, 0⟩, ⟨0, 3, 70, 0.75, 0⟩,
            ⟨0, 4, 70, 0.9, 0⟩] : List Obs).map add_denoised) 60).filter
          (fun r => r.time_utc == 0)).map (fun r => r.s4_denoised)).sum /
          (((filter_higher_elevs
          (([⟨0, 1, 70, 0.1, 0⟩, ⟨0, 2, 70, 0.5, 0⟩, ⟨0, 3, 70, 0.75, 0⟩,
            ⟨0, 4, 70, 0.9, 0⟩] : List Obs).map add_denoised) 60).filter
          (fun r => r.time_utc == 0)).length : ℝ) } := by
  have hmem : (⟨⟨0, 4, 3, 2, 0.9, 0.5625⟩, 0.75, 0.5⟩ : AggRowP) ∈
      preprocess_S4_data
        [⟨0, 1, 70, 0.1, 0⟩, ⟨0, 2, 70, 0.5, 0⟩, ⟨0, 3, 70, 0.75, 0⟩,
          ⟨0, 4, 70, 0.9, 0⟩] 60 0.4 0.7 := by
    rw [C3_aggregation.2]
    exact List.mem_singleton.mpr rfl
  exact (C3_aggregation.1
    [⟨0, 1, 70, 0.1, 0⟩, ⟨0, 2, 70, 0.5, 0⟩, ⟨0, 3, 70, 0.75, 0⟩,
      ⟨0, 4, 70, 0.9, 0⟩] 60 0.4 0.7).2.2 _ hmem

section PercentageLemmas

/-- Evaluation of the pipeline on a frame with a duplicated
`(time_utc, svid)` observation: the mild count (a row count) exceeds the
distinct-satellite count, and the mild percentage comes out as `2`. -/
theorem preprocess_duplicate_row :
    preprocess_S4_data [⟨0, 1, 70, 0.5, 0⟩, ⟨0, 1, 70, 0.5, 0⟩] 60 0.4 0.7 =
      [⟨⟨0, 1, 2, 0, 0.5, 0.5⟩, 2, 0⟩] := by
  have hv2 : denoise_S4_val 0.5 0 = 0.5 :=
    denoise_S4_val_zero_corr 0.5 (by norm_num) 500 (by norm_num)
  have h1 : ([⟨0, 1, 70, 0.5, 0⟩, ⟨0, 1, 70, 0.5, 0⟩] : List Obs).map
      add_denoised =
      [⟨⟨0, 1, 70, 0.5, 0⟩, 0.5⟩, ⟨⟨0, 1, 70, 0.5, 0⟩, 0.5⟩] := by
    simp [add_denoised, hv2]
  have h2 : filter_higher_elevs
      [⟨⟨0, 1, 70, 0.5, 0⟩, 0.5⟩, ⟨⟨0, 1, 70, 0.5, 0⟩, 0.5⟩] 60 =
      [⟨⟨0, 1, 70, 0.5, 0⟩, 0.5⟩, ⟨⟨0, 1, 70, 0.5, 0⟩, 0.5⟩] := by
    norm_num [filter_higher_elevs, List.filter_cons, List.filter_nil]
  have h3 : ([⟨⟨0, 1, 70, 0.5, 0⟩, 0.5⟩, ⟨⟨0, 1, 70, 0.5, 0⟩, 0.5⟩] :
      List ObsD).map (classify 0.4 0.7) =
      [⟨⟨⟨0, 1, 70, 0.5, 0⟩, 0.5⟩, true, false⟩,
       ⟨⟨⟨0, 1, 70, 0.5, 0⟩, 0.5⟩, true, false⟩] := by
    norm_num [classify]
  simp only [preprocess_S4_data, preprocess_S4_data_state]
  rw [h1, h2, h3]
  have h4 : ([⟨⟨⟨0, 1, 70, 0.5, 0⟩, 0.5⟩, true, false⟩,
      ⟨⟨⟨0, 1, 70, 0.5, 0⟩, 0.5⟩, true, false⟩] : List ObsC).map
        (fun r => r.time_utc) = [0, 0] := by
    simp
  rw [h4]
  have h5 : ([0, 0] : List ℤ).dedup = [0] := by decide
  rw [h5]
  have h6 : List.insertionSort (fun a b => a ≤ b) ([0] : List ℤ) = [0] := rfl
  rw [h6]
  simp only [List.map_cons, List.map_nil]
  have h7 : aggregate_group 0
      [⟨⟨⟨0, 1, 70, 0.5, 0⟩, 0.5⟩, true, false⟩,
       ⟨⟨⟨0, 1, 70, 0.5, 0⟩, 0.5⟩, true, false⟩] = ⟨0, 1, 2, 0, 0.5, 0.5⟩ := by
    have hd : ([1, 1] : List ℤ).dedup = [1] := by decide
    simp only [aggregate_group]
    norm_num [List.filter_cons, List.filter_nil, List.countP_cons,
      List.countP_nil, List.map_cons, List.map_nil, hd, listMax, max_def]
  rw [h7]
  have hp1 : np_round3 (2 : ℝ) = 2 := np_round3_exact 2 2000 (by norm_num)
  have hp2 : np_round3 (0 : ℝ) = 0 := np_round3_exact 0 0 (by norm_num)
  norm_num [add_percs, hp1, hp2]

/-- In a list of rows all carrying the same timestamp, duplicate-free
`(time_utc, svid)` pairs force duplicate-free satellite identifiers. -/
theorem nodup_svid_of_nodup_pairs (G : List ObsD) (k : ℤ)
    (hconst : ∀ r ∈ G, r.time_utc = k)
    (hnd : (G.map (fun r => (r.time_utc, r.svid))).Nodup) :
    (G.map (fun r => r.svid)).Nodup := by
  induction G with
  | nil => simp
  | cons p t ih =>
    simp only [List.map_cons, List.nodup_cons] at hnd ⊢
    refine ⟨?_, ih (fun q hq => hconst q (List.mem_cons_of_mem p hq)) hnd.2⟩
    intro hmem
    rcases List.mem_map.mp hmem with ⟨q, hq, hqeq⟩
    apply hnd.1
    have hpk : p.time_utc = k := hconst p (List.mem_cons_self p t)
    have hqk : q.time_utc = k := hconst q (List.mem_cons_of_mem p hq)
    have hpair : (q.time_utc, q.svid) = (p.time_utc, p.svid) := by
      rw [hpk, hqk, hqeq]
    rw [← hpair]
    exact List.mem_map_of_mem _ hq

/-- A ratio of a count over a larger count lies in the unit interval
(`0/0 = 0` under real division covers the empty group). -/
theorem ratio_unit (m n : ℕ) (h : m ≤ n) :
    0 ≤ (m : ℝ) / (n : ℝ) ∧ (m : ℝ) / (n : ℝ) ≤ 1 := by
  constructor
  · positivity
  · rcases Nat.eq_zero_or_pos n with h0 | h0
    · subst h0
      have hm : m = 0 := Nat.le_zero.mp h
      subst hm
      norm_num
    · rw [div_le_one (by exact_mod_cast h0)]
      exact_mod_cast h

end PercentageLemmas

/-- Claim C4 counterexample: on an input with a duplicated `(time_utc, svid)`
observation (same satellite reported twice at one timestamp), the mild
count — a row count — exceeds `n_sat` — a distinct-satellite count — and
`perc_mild_scint = round(2/1, 3) = 2` lies outside `[0, 1]`, refuting the
claim for arbitrary inputs. -/
theorem C4_counterexample :
    ∃ a ∈ preprocess_S4_data
      [⟨0, 1, 70, 0.5, 0⟩, ⟨0, 1, 70, 0.5, 0⟩] 60 0.4 0.7,
      ¬ a.perc_mild_scint ≤ 1 := by
  refine ⟨⟨⟨0, 1, 2, 0, 0.5, 0.5⟩, 2, 0⟩, ?_, ?_⟩
  · rw [preprocess_duplicate_row]
    exact List.mem_singleton.mpr rfl
  · norm_num

/-- Claim C4 as amended: for every input and every output row,
`perc_mild_scint = round(n_sat_mild_scint / n_sat, 3)` and
`perc_strong_scint = round(n_sat_strong_scint / n_sat, 3)`, and
`n_sat_mild_scint >= n_sat_strong_scint` whenever the thresholds satisfy
`lower <= higher`; both percentages lie in `[0, 1]` provided no
`(time_utc, svid)` pair is duplicated among the input observations (as
with data from the ISMR service) — with duplicated satellite rows the
counts can exceed `n_sat` and the percentages can exceed 1. -/
theorem C4_percentage_invariants :
    ∀ (df : List Obs) (e l h : ℝ),
      (∀ a ∈ preprocess_S4_data df e l h,
        a.perc_mild_scint =
          np_round3 ((a.n_sat_mild_scint : ℝ) / (a.n_sat : ℝ)) ∧
        a.perc_strong_scint =
          np_round3 ((a.n_sat_strong_scint : ℝ) / (a.n_sat : ℝ)) ∧
        (l ≤ h → a.n_sat_strong_scint ≤ a.n_sat_mild_scint)) ∧
      (List.Nodup (df.map (fun r => (r.time_utc, r.svid))) →
        ∀ a ∈ preprocess_S4_data df e l h,
          0 ≤ a.perc_mild_scint ∧ a.perc_mild_scint ≤ 1 ∧
          0 ≤ a.perc_strong_scint ∧ a.perc_strong_scint ≤ 1) := by
  intro df e l h
  constructor
  · intro a ha
    obtain ⟨k, hk, rfl⟩ := preprocess_result_shape df e l h a ha
    refine ⟨rfl, rfl, ?_⟩
    intro hlh
    rw [aggregate_group_classified]
    show List.countP _ _ ≤ List.countP _ _
    apply List.countP_mono_left
    intro r hr hdec
    exact decide_eq_true (le_trans hlh (of_decide_eq_true hdec))
  · intro hnd a ha
    obtain ⟨k, hk, rfl⟩ := preprocess_result_shape df e l h a ha
    have hsub1 : List.Sublist (filter_higher_elevs (df.map add_denoised) e)
        (df.map add_denoised) := by
      unfold filter_higher_elevs
      exact List.filter_sublist _
    have hsub2 : List.Sublist ((filter_higher_elevs (df.map add_denoised) e).filter
        (fun r => r.time_utc == k)) (df.map add_denoised) :=
      (List.filter_sublist _).trans hsub1
    have hpairs0 : (df.map add_denoised).map
        (fun r => (r.time_utc, r.svid)) =
        df.map (fun r => (r.time_utc, r.svid)) := by
      rw [List.map_map]
      rfl
    have hnd1 : ((df.map add_denoised).map
        (fun r => (r.time_utc, r.svid))).Nodup := by
      rw [hpairs0]
      exact hnd
    have hpairs : (((filter_higher_elevs (df.map add_denoised) e).filter
        (fun r => r.time_utc == k)).map
          (fun r => (r.time_utc, r.svid))).Nodup :=
      hnd1.sublist (List.Sublist.map _ hsub2)
    have hconst : ∀ r ∈ (filter_higher_elevs (df.map add_denoised) e).filter
        (fun r => r.time_utc == k), r.time_utc = k := by
      intro r hr
      exact eq_of_beq (List.mem_filter.mp hr).2
    have hsvnd := nodup_svid_of_nodup_pairs _ k hconst hpairs
    have hdl : (((filter_higher_elevs (df.map add_denoised) e).filter
        (fun r => r.time_utc == k)).map (fun r => r.svid)).dedup =
        ((filter_higher_elevs (df.map add_denoised) e).filter
          (fun r => r.time_utc == k)).map (fun r => r.svid) :=
      List.dedup_eq_self.mpr hsvnd
    have hm : ((filter_higher_elevs (df.map add_denoised) e).filter
        (fun r => r.time_utc == k)).countP
          (fun r => decide (l ≤ r.s4_denoised)) ≤
        ((((filter_higher_elevs (df.map add_denoised) e).filter
          (fun r => r.time_utc == k)).map (fun r => r.svid)).dedup).length := by
      rw [hdl, List.length_map]
      exact List.countP_le_length _
    have hs : ((filter_higher_elevs (df.map add_denoised) e).filter
        (fun r => r.time_utc == k)).countP
          (fun r => decide (h ≤ r.s4_denoised)) ≤
        ((((filter_higher_elevs (df.map add_denoised) e).filter
          (fun r => r.time_utc == k)).map (fun r => r.svid)).dedup).length := by
      rw [hdl, List.length_map]
      exact List.countP_le_length _
    rw [aggregate_group_classified]
    simp only [add_percs]
    have h1 := ratio_unit _ _ hm
    have hu1 := np_round3_unit _ h1.1 h1.2
    have h2 := ratio_unit _ _ hs
    have hu2 := np_round3_unit _ h2.1 h2.2
    exact ⟨hu1.1, hu1.2, hu2.1, hu2.2⟩

/-- Witness for C4 on the C3 fixture input (distinct satellites): both
percentages of its single aggregate row are within `[0, 1]` and the mild
count dominates the strong count. -/
theorem C4_percentage_invariants_witness :
    (0 : ℝ) ≤ (⟨⟨0, 4, 3, 2, 0.9, 0.5625⟩, 0.75, 0.5⟩ : AggRowP).perc_mild_scint ∧
    (⟨⟨0, 4, 3, 2, 0.9, 0.5625⟩, 0.75, 0.5⟩ : AggRowP).perc_mild_scint ≤ 1 ∧
    (2 : ℕ) ≤ 3 := by
  have hmem : (⟨⟨0, 4, 3, 2, 0.9, 0.5625⟩, 0.75, 0.5⟩ : AggRowP) ∈
      preprocess_S4_data
        [⟨0, 1, 70, 0.1, 0⟩, ⟨0, 2, 70, 0.5, 0⟩, ⟨0, 3, 70, 0.75, 0⟩,
          ⟨0, 4, 70, 0.9, 0⟩] 60 0.4 0.7 := by
    rw [preprocess_fixture]
    exact List.mem_singleton.mpr rfl
  have hc := C4_percentage_invariants
    [⟨0, 1, 70, 0.1, 0⟩, ⟨0, 2, 70, 0.5, 0⟩, ⟨0, 3, 70, 0.75, 0⟩,
      ⟨0, 4, 70, 0.9, 0⟩] 60 0.4 0.7
  have hb := hc.2 (by decide) _ hmem
  have hcnt := (hc.1 _ hmem).2.2 (by norm_num)
  exact ⟨hb.1, hb.2.1, hcnt⟩

/-- Witness for C2: the boundary row with `elev = 60` at threshold 60
satisfies the membership characterisation. -/
theorem C2_filter_higher_elevs_witness :
    (⟨⟨0, 1, 60, 0, 0⟩, 0⟩ : ObsD) ∈
        filter_higher_elevs [⟨⟨0, 1, 60, 0, 0⟩, 0⟩] 60 ↔
      (⟨⟨0, 1, 60, 0, 0⟩, 0⟩ : ObsD) ∈
        [(⟨⟨0, 1, 60, 0, 0⟩, 0⟩ : ObsD)] ∧
      (60 : ℝ) ≤ (⟨⟨0, 1, 60, 0, 0⟩, 0⟩ : ObsD).elev :=
  C2_filter_higher_elevs.1 [⟨⟨0, 1, 60, 0, 0⟩, 0⟩] 60 ⟨⟨0, 1, 60, 0, 0⟩, 0⟩

/-- Witness for C5 at the configured thresholds. -/
theorem C5_preprocess_empty_input_witness :
    preprocess_S4_data [] 60 0.4 0.7 = [] :=
  C5_preprocess_empty_input 60 0.4 0.7

/-- Witness for C9 on a one-row frame. -/
theorem C9_denoise_in_place_witness :
    ((preprocess_S4_data_state [⟨0, 1, 70, 0.5, 0⟩] 60 0.4 0.7).1).map
      (fun r => r.toObs) = [⟨0, 1, 70, 0.5, 0⟩] :=
  (C9_denoise_in_place [⟨0, 1, 70, 0.5, 0⟩] 60 0.4 0.7).1
